import Mathlib

/-!
Verification of the multisurv repository utilities.

This file gives a shallow embedding of the parts of the repository that the
verified properties are about:

* `clinical_compare.py` — the value-equivalence predicate
  `values_are_equivalent` used by the clinical-table comparator.  Python
  strings are Lean `String`s; `str.lower()` is modelled on the ASCII range;
  Python's `in` containment test on strings is modelled by an executable
  contiguous-substring check on character lists; the `float()` builtin is
  modelled by an executable parser of (optionally signed) decimal literals
  with optional fraction and exponent, producing an exact scaled-decimal
  value `m / 10 ^ e` (non-finite inputs such as `inf`/`nan` and digit
  underscores are outside the model); the comparison
  `abs(num1 - num2) < 1e-6` is computed exactly on those decimal values —
  an idealization of the source's binary64 arithmetic under which no
  IEEE-rounding-sensitive property is claimed below.

* `src/patcher.py` — the `PatchGenerator.__next__` slide cursor loop and the
  `OfflinePatcher` driver (`run` and `_compose_path`).  Slide patches and
  slide identities are abstracted to `Nat`; the outcome of the third-party
  slide-reading calls is an oracle parameter; file-system effects are
  modelled by explicit state (a list of existing directories).
-/

/-! ## Embedding of `clinical_compare.py` -/

/-- Model of Python `str.lower()` on a single character (ASCII range:
characters `A`–`Z` are shifted to `a`–`z`, everything else is unchanged). -/
def pyLowerChar (c : Char) : Char :=
  if 'A' ≤ c ∧ c ≤ 'Z' then Char.ofNat (c.toNat + 32) else c

/-- Model of Python `str.lower()` : lower every character. -/
def pyLower (s : String) : String :=
  String.mk (s.toList.map pyLowerChar)

/-- Helper for the containment test: `pyStartsWith needle hay` is true when
`needle` is an initial segment of `hay`. -/
def pyStartsWith : List Char → List Char → Bool
  | [], _ => true
  | _ :: _, [] => false
  | a :: as, b :: bs => a == b && pyStartsWith as bs

/-- Model of Python's `needle in hay` containment test on strings:
`needle` occurs as a contiguous substring of `hay`. -/
def pySubstr (needle : List Char) : List Char → Bool
  | [] => pyStartsWith needle []
  | b :: bs => pyStartsWith needle (b :: bs) || pySubstr needle bs

/-- Python whitespace characters stripped by `float()`. -/
def isPySpace (c : Char) : Bool :=
  c == ' ' || c == '\t' || c == '\n' || c == '\r' || c == '\x0b' || c == '\x0c'

/-- Strip leading and trailing whitespace (as `float()` does). -/
def pyStrip (cs : List Char) : List Char :=
  ((cs.dropWhile isPySpace).reverse.dropWhile isPySpace).reverse

/-- Parse an optional sign; returns (negative?, rest). -/
def parseSign : List Char → Bool × List Char
  | '+' :: rest => (false, rest)
  | '-' :: rest => (true, rest)
  | cs => (false, cs)

/-- Value of a digit string read in base 10. -/
def digitsToNat (ds : List Char) : Nat :=
  ds.foldl (fun acc c => acc * 10 + (c.toNat - 48)) 0

/-- Exact value of a finite decimal literal: the rational `m / 10 ^ e`.
This represents the (exact) value produced by Python's `float()` on a
decimal literal, before IEEE rounding; the model works with the exact
value throughout. -/
structure DecNum where
  m : Int
  e : Nat
deriving DecidableEq, Repr

/-- Apply a decimal exponent `10 ^ k` (negated when `eneg`) to `m / 10 ^ e`. -/
def applyExp (m : Int) (e : Nat) (eneg : Bool) (k : Nat) : DecNum :=
  if eneg then ⟨m, e + k⟩ else ⟨m * 10 ^ k, e⟩

/-- Core of the `float()` model on a stripped character list.  Grammar:
optional sign, then digits with an optional fraction (at least one digit in
integer or fraction part), then an optional `e`/`E` exponent with optional
sign and mandatory digits; anything else fails (returns `none`, standing for
Python's `ValueError`). -/
def pyFloatCore (cs : List Char) : Option DecNum :=
  let (neg, cs1) := parseSign cs
  let ip := cs1.takeWhile Char.isDigit
  let rest1 := cs1.dropWhile Char.isDigit
  let (fp, rest2) :=
    match rest1 with
    | '.' :: t => (t.takeWhile Char.isDigit, t.dropWhile Char.isDigit)
    | _ => ([], rest1)
  if ip.isEmpty && fp.isEmpty then none
  else
    let m0 : Nat := digitsToNat ip * 10 ^ fp.length + digitsToNat fp
    let m : Int := if neg then -(m0 : Int) else (m0 : Int)
    match rest2 with
    | [] => some ⟨m, fp.length⟩
    | e :: t =>
      if e == 'e' || e == 'E' then
        let (eneg, t1) := parseSign t
        let ed := t1.takeWhile Char.isDigit
        let t2 := t1.dropWhile Char.isDigit
        if ed.isEmpty || !t2.isEmpty then none
        else some (applyExp m fp.length eneg (digitsToNat ed))
      else none

/-- Model of Python `float(s)` on a string: `none` models a raised
`ValueError` (the `except` path of `values_are_equivalent`). -/
def pyFloat (s : String) : Option DecNum :=
  pyFloatCore (pyStrip s.toList)

/-- Model of the numeric test `abs(num1 - num2) < 1e-6` on the two parsed
decimal values, computed exactly on `m / 10 ^ e` by the cross-multiplied
integer comparison `|m1 * 10 ^ e2 - m2 * 10 ^ e1| * 10 ^ 6 < 10 ^ (e1 + e2)`.
This is an idealization: the source compares binary64 doubles after
`float()` rounding, so near a rounding boundary the two tests can disagree
in either direction.  No theorem below depends on the outcome of this test:
the claims proved here either conclude True through a branch that fires
regardless of it, hold for any symmetric test, or bypass it because a
conversion failed. -/
def closeTol (d1 d2 : DecNum) : Bool :=
  (d1.m * 10 ^ d2.e - d2.m * 10 ^ d1.e).natAbs * 10 ^ 6 < 10 ^ (d1.e + d2.e)

/-- Model of the `try` block of `values_are_equivalent`
(`clinical_compare.py` lines 20–32): true when both strings convert via
`float()` and the values differ by less than `1e-6`; a failed conversion
falls through (`false` here, continuing with the string comparisons). -/
def numericEquivalent (val1 val2 : String) : Bool :=
  match pyFloat val1, pyFloat val2 with
  | some num1, some num2 => closeTol num1 num2
  | _, _ => false

/-- Model of the containment check of `values_are_equivalent`
(`clinical_compare.py` lines 34–40): `val1_lower in val2_lower or
val2_lower in val1_lower`. -/
def containsHit (val1 val2 : String) : Bool :=
  pySubstr (pyLower val1).toList (pyLower val2).toList ||
    pySubstr (pyLower val2).toList (pyLower val1).toList

/-- Embedding of `values_are_equivalent` (`clinical_compare.py` lines 4–42),
mirroring the sequence of early returns of the source. -/
def values_are_equivalent (val1 val2 : String) : Bool :=
  if val1 == val2 then true
  else if pyLower val1 == pyLower val2 then true
  else if numericEquivalent val1 val2 then true
  else if containsHit val1 val2 then true
  else false

/-- Modelled from the spec: the "string-based comparison semantics" that
`values_are_equivalent` falls back to when numeric conversion fails —
exact equality, case-insensitive equality, or case-insensitive
containment. -/
def stringEquivalent (val1 val2 : String) : Bool :=
  val1 == val2 || pyLower val1 == pyLower val2 || containsHit val1 val2

/-! ### Basic lemmas about the comparator -/

/-- The if-chain of early returns collapses to a disjunction of the four
tests. -/
theorem values_eq_or (a b : String) :
    values_are_equivalent a b
      = (a == b || (pyLower a == pyLower b) || numericEquivalent a b
          || containsHit a b) := by
  unfold values_are_equivalent
  cases h1 : a == b <;> cases h2 : pyLower a == pyLower b <;>
    cases h3 : numericEquivalent a b <;> cases h4 : containsHit a b <;>
      simp [h1, h2, h3, h4]

/-- The empty needle is a substring of every haystack. -/
theorem pySubstr_nil (l : List Char) : pySubstr [] l = true := by
  cases l <;> simp [pySubstr, pyStartsWith]

example : pyFloat "23486.0" = some ⟨234860, 1⟩ := by decide
example : pyFloat "23486" = some ⟨23486, 0⟩ := by decide
example : closeTol ⟨234860, 1⟩ ⟨23486, 0⟩ = true := by decide
example : pyFloat "Male" = none := by decide
example : pyFloat "1e3" = some ⟨1000, 0⟩ := by decide
example : pyFloat "-2.5e-2" = some ⟨-25, 3⟩ := by decide
example : pyFloat "." = none := by decide
example : pyFloat "" = none := by decide
example : pyFloat " 5. " = some ⟨5, 0⟩ := by decide
example : pyFloat "1.2.3" = none := by decide

/-! ## Embedding of `src/patcher.py` -/

/-- Outcome of one patch attempt for a slide inside
`PatchGenerator.__next__`: the call can return a value (a `(patch,
basename)` tuple or the `'No tumor annotations found.'` string — both are
returned to the caller unchanged), can return the special invalid tuple
whose first element is `'No valid tissue pixels found.'` (skipped by the
`continue` branch), or can raise an exception (`IndexError` or any other
`Exception`, both caught and skipped).  The returned value is abstracted to
a `Nat`. -/
inductive AttemptOutcome where
  | ret (v : Nat)
  | skipTuple
  | exn
deriving DecidableEq

/-- The `while self.i < self.n` loop of `PatchGenerator.__next__`
(`src/patcher.py` lines 82–108), as structural recursion on the fuel
`n - i` (the number of slides not yet passed, which the loop strictly
decreases).  The result is the returned value (`none` models
`StopIteration`) together with the cursor `self.i` after the call; on
exhaustion `reset()` sets the cursor to `0` before `StopIteration` is
raised. -/
def pgNextGo (attempt : Nat → AttemptOutcome) : Nat → Nat → Option Nat × Nat
  | _, 0 => (none, 0)
  | i, fuel + 1 =>
    match attempt i with
    | .ret v => (some v, i + 1)
    | .skipTuple => pgNextGo attempt (i + 1) fuel
    | .exn => pgNextGo attempt (i + 1) fuel

/-- One call of `PatchGenerator.__next__` on a generator with `n` slides and
cursor `i`, with `attempt` giving the outcome of the patch-reading call for
each slide index. -/
def pgNext (attempt : Nat → AttemptOutcome) (n i : Nat) : Option Nat × Nat :=
  pgNextGo attempt i (n - i)

/-- Cursor value set by `PatchGenerator.__init__` (which calls `reset()`,
`src/patcher.py` lines 34–41 and 78–80). -/
def pgInitI : Nat := 0

/-- Outcome of one random-patch draw inside `OfflinePatcher.run`: either a
successfully produced (and then saved) patch, abstracted to a `Nat`, or an
exception raised by the draw. -/
inductive DrawOutcome where
  | ok (patch : Nat)
  | fail
deriving DecidableEq

/-- The inner `for i in range(n)` loop of `OfflinePatcher.run`
(`src/patcher.py` lines 164–194) for one slide, with `draw` giving the
outcome of each draw attempt: returns the list of saved patches in order
together with the number of draws attempted.  A successful draw is saved
and the loop continues; an exception prints a message and `break`s out of
the slide's loop. -/
def runSlideDraws (draw : Nat → DrawOutcome) (i : Nat) : Nat → List Nat × Nat
  | 0 => ([], 0)
  | k + 1 =>
    match draw i with
    | .ok p =>
      let r := runSlideDraws draw (i + 1) k
      (p :: r.1, r.2 + 1)
    | .fail => ([], 1)

/-- The outer `for slide_file in self.slide_files` loop of
`OfflinePatcher.run`: slides are processed in list order, each with up to
`n` draw attempts; the result is the list of `(slide, patch)` pairs saved,
in order. -/
def offlineRun (draw : Nat → Nat → DrawOutcome) (n : Nat) :
    List Nat → List (Nat × Nat)
  | [] => []
  | s :: rest =>
      (runSlideDraws (draw s) 0 n).1.map (fun p => (s, p))
        ++ offlineRun draw n rest

/-- Whether a draw outcome is a success. -/
def isOk : DrawOutcome → Bool
  | .ok _ => true
  | .fail => false

/-- The patch of a successful draw outcome. -/
def okPatch : DrawOutcome → Option Nat
  | .ok p => some p
  | .fail => none

/-- Declarative per-slide policy (the amended spec reading): the saved
patches of a slide are the successes of its draws taken in order up to and
not including the first failing draw, capped at `n` draws. -/
def specSlideSaves (draw : Nat → DrawOutcome) (n : Nat) : List Nat :=
  (((List.range n).map draw).takeWhile isOk).filterMap okPatch

/-- Model of `os.path.splitext` on a file name without directory
separators: split off the suffix starting at the last `'.'`, except that a
name whose characters before that dot are all dots keeps its dot (leading
dots do not start an extension). -/
def splitext (p : String) : String × String :=
  let cs := p.toList
  if cs.contains '.' then
    let d := cs.length - 1 - cs.reverse.findIdx (fun c => c == '.')
    if (cs.take d).any (fun c => c != '.') then
      (String.mk (cs.take d), String.mk (cs.drop d))
    else (p, "")
  else (p, "")

/-- Model of `os.path.join(a, b)` for two components (POSIX): an absolute
second component replaces the first; otherwise the parts are glued with a
`'/'` unless the first is empty or already ends in `'/'`. -/
def pyJoin (a b : String) : String :=
  match b.toList with
  | '/' :: _ => b
  | _ =>
    if a == "" then a ++ b
    else
      match a.toList.getLast? with
      | some '/' => a ++ b
      | _ => a ++ "/" ++ b

/-- Embedding of `OfflinePatcher._compose_path` (`src/patcher.py` lines
133–144).  The random `uuid.uuid4().hex` string is a parameter, given as
its character list; Python's slice `[:5]` is `List.take 5`. -/
def composePath (target_dir filename : String) (uuidHex : List Char) : String :=
  let unique_id := String.mk (uuidHex.take 5)
  let slide_file_name := (splitext filename).1
  let slide_file_name2 := (splitext slide_file_name).1
  let unique_name := slide_file_name2 ++ "_" ++ unique_id
  let unique_name2 := unique_name ++ "." ++ pyLower "png"
  pyJoin target_dir unique_name2

/-- The slide base name used by `_compose_path`: the slide file name with
`os.path.splitext` applied twice (stripping up to two extensions). -/
def slideBasename (filename : String) : String :=
  (splitext (splitext filename).1).1

/-- Model of the directory creation in `OfflinePatcher.__init__`
(`src/patcher.py` lines 129–131): `os.makedirs(target_dir)` is run when the
directory does not exist.  The file system is abstracted to the list of
existing directories. -/
def ensureDir (dirs : List String) (d : String) : List String :=
  if dirs.contains d then dirs else d :: dirs

/-- Lowercase hexadecimal digit, as produced by `uuid.uuid4().hex`. -/
def isHexDigitCh (c : Char) : Bool :=
  c.isDigit || ('a' ≤ c && c ≤ 'f')

example : splitext "slide1.svs" = ("slide1", ".svs") := by decide
example : splitext ".bashrc" = (".bashrc", "") := by decide
example : slideBasename "TCGA-01.abc.svs" = "TCGA-01" := by decide
example : composePath "patches" "slide1.svs" ['a','b','c','d','e','f']
    = "patches/slide1_abcde.png" := by decide
example : pgNext (fun _ => .exn) 3 0 = (none, 0) := by decide
example : pgNext (fun i => if i == 1 then .ret 7 else .exn) 3 0
    = (some 7, 2) := by decide
example : runSlideDraws (fun i => if i == 0 then .fail else .ok 7) 0 2
    = ([], 1) := by decide

/-! ### Further comparator lemmas -/

/-- String `==` is symmetric. -/
theorem streq_comm (a b : String) : (a == b) = (b == a) := by
  by_cases h : a = b
  · subst h; rfl
  · rw [beq_eq_false_iff_ne.mpr h, beq_eq_false_iff_ne.mpr (Ne.symm h)]

/-- The exact tolerance test is symmetric. -/
theorem closeTol_comm (d1 d2 : DecNum) : closeTol d1 d2 = closeTol d2 d1 := by
  unfold closeTol
  rw [decide_eq_decide]
  rw [← Int.natAbs_neg (d1.m * 10 ^ d2.e - d2.m * 10 ^ d1.e), neg_sub,
    Nat.add_comm]

/-- The numeric branch is symmetric. -/
theorem numericEquivalent_comm (a b : String) :
    numericEquivalent a b = numericEquivalent b a := by
  unfold numericEquivalent
  cases pyFloat a <;> cases pyFloat b <;> simp [closeTol_comm]

/-- The containment branch is symmetric. -/
theorem containsHit_comm (a b : String) :
    containsHit a b = containsHit b a := by
  unfold containsHit
  exact Bool.or_comm _ _

/-! ### Claim theorems for the comparator -/

/-- C1 — counterexample.  The claim "values_are_equivalent(\"Male\",
\"Female\") returns False" is false on the code: since `"male"` is a
contiguous substring of `"female"`, the case-insensitive containment check
fires and the function returns True. -/
theorem values_male_female_claim_false :
    ¬ values_are_equivalent "Male" "Female" = false := by decide

/-- C1 — amended claim: `values_are_equivalent "Male" "Female"` returns
True (the lowercased first argument is a substring of the lowercased
second). -/
theorem values_male_female_returns_true :
    values_are_equivalent "Male" "Female" = true := by decide

/-- C2 — `values_are_equivalent` is reflexive and symmetric: every string
is equivalent to itself (the first early return), and the result does not
depend on the argument order (every one of the four tests is symmetric). -/
theorem values_are_equivalent_refl_symm (a b : String) :
    values_are_equivalent a a = true ∧
    values_are_equivalent a b = values_are_equivalent b a := by
  constructor
  · unfold values_are_equivalent
    simp
  · rw [values_eq_or, values_eq_or, streq_comm, streq_comm (pyLower a),
      numericEquivalent_comm, containsHit_comm]

/-- C4 — when the lowercased form of one string is a contiguous substring
of the lowercased form of the other (which covers case-insensitive equal
strings), `values_are_equivalent` returns True (in particular for
`"TCGA-STAD"` vs `"STAD"`, see the witness). -/
theorem values_substring_equivalent (a b : String)
    (h : pySubstr (pyLower a).toList (pyLower b).toList = true
        ∨ pySubstr (pyLower b).toList (pyLower a).toList = true) :
    values_are_equivalent a b = true := by
  rw [values_eq_or]
  have hc : containsHit a b = true := by
    unfold containsHit
    rcases h with h | h
    · rw [h]; rfl
    · rw [h]; exact Bool.or_true _
  simp [hc]

/-- C4 — witness: `"stad"` is a substring of `"tcga-stad"`, and the
function returns True on `"TCGA-STAD"` vs `"STAD"`. -/
theorem values_substring_equivalent_witness :
    pySubstr (pyLower "STAD").toList (pyLower "TCGA-STAD").toList = true ∧
    values_are_equivalent "TCGA-STAD" "STAD" = true :=
  ⟨by decide,
    values_substring_equivalent "TCGA-STAD" "STAD" (Or.inr (by decide))⟩

/-- C5 — when at least one of the two strings does not convert via
`float()`, the failure is absorbed (no exception escapes: in the embedding
the function is total) and the result is exactly the string-based
comparison semantics: exact equality, case-insensitive equality, or
case-insensitive containment. -/
theorem values_fallback_string_semantics (a b : String)
    (h : pyFloat a = none ∨ pyFloat b = none) :
    values_are_equivalent a b = stringEquivalent a b := by
  have hnum : numericEquivalent a b = false := by
    unfold numericEquivalent
    rcases h with h | h
    · rw [h]
    · rw [h]; cases pyFloat a <;> rfl
  rw [values_eq_or]
  unfold stringEquivalent
  rw [hnum]
  simp

/-- C5 — witness: `"Male"` does not parse as a number, and the function
agrees with the string-based semantics on `"Male"` vs `"Female"`. -/
theorem values_fallback_string_semantics_witness :
    pyFloat "Male" = none ∧
    values_are_equivalent "Male" "Female"
      = stringEquivalent "Male" "Female" :=
  ⟨by decide,
    values_fallback_string_semantics "Male" "Female" (Or.inl (by decide))⟩

/-- C9 — the empty string is equivalent to everything: for every string
`a`, comparing `a` with `""` (in either order) returns True, because the
empty needle is a substring of every haystack, so the containment check
fires (when the exact-equality check has not already). -/
theorem values_empty_string_equivalent (a : String) :
    values_are_equivalent a "" = true ∧ values_are_equivalent "" a = true := by
  have h : pySubstr (pyLower "").toList (pyLower a).toList = true :=
    pySubstr_nil _
  constructor
  · rw [values_eq_or]
    have hc : containsHit a "" = true := by
      unfold containsHit
      rw [h]
      simp
    simp [hc]
  · rw [values_eq_or]
    have hc : containsHit "" a = true := by
      unfold containsHit
      rw [h]
      simp
    simp [hc]

/-! ### Lemmas about the patch generator and driver -/

/-- When the cursor loop returns `StopIteration` (`none`), no remaining
slide attempt returned a value: every slide in the scanned window was
processed without a successful return. -/
theorem pgNextGo_none_no_ret (attempt : Nat → AttemptOutcome) :
    ∀ fuel i, (pgNextGo attempt i fuel).1 = none →
      ∀ j v, i ≤ j → j < i + fuel → attempt j ≠ .ret v := by
  intro fuel
  induction fuel with
  | zero => intro i _ j v hij hj; omega
  | succ k ih =>
    intro i hnone j v hij hj
    cases h : attempt i with
    | ret w =>
      rw [pgNextGo, h] at hnone
      exact absurd hnone (by simp)
    | skipTuple =>
      rcases Nat.eq_or_lt_of_le hij with rfl | hlt
      · rw [h]; intro hc; cases hc
      · rw [pgNextGo, h] at hnone
        exact ih (i + 1) hnone j v hlt (by omega)
    | exn =>
      rcases Nat.eq_or_lt_of_le hij with rfl | hlt
      · rw [h]; intro hc; cases hc
      · rw [pgNextGo, h] at hnone
        exact ih (i + 1) hnone j v hlt (by omega)

/-- The cursor after the loop is bounded by the scanned window, and a
`StopIteration` result leaves the cursor reset to `0`. -/
theorem pgNextGo_cursor (attempt : Nat → AttemptOutcome) :
    ∀ fuel i, (pgNextGo attempt i fuel).2 ≤ i + fuel ∧
      ((pgNextGo attempt i fuel).1 = none → (pgNextGo attempt i fuel).2 = 0) := by
  intro fuel
  induction fuel with
  | zero => intro i; exact ⟨Nat.zero_le _, fun _ => rfl⟩
  | succ k ih =>
    intro i
    cases h : attempt i with
    | ret w =>
      have hre : pgNextGo attempt i (k + 1) = (some w, i + 1) := by
        rw [pgNextGo, h]
      rw [hre]
      exact ⟨show i + 1 ≤ i + (k + 1) by omega, fun hc => Option.noConfusion hc⟩
    | skipTuple =>
      rw [pgNextGo, h]
      exact ⟨le_trans (ih (i + 1)).1 (by omega), (ih (i + 1)).2⟩
    | exn =>
      rw [pgNextGo, h]
      exact ⟨le_trans (ih (i + 1)).1 (by omega), (ih (i + 1)).2⟩

/-- The saved patches of one slide are the successes of the draws taken in
order up to the first failure, capped at the draw budget. -/
theorem runSlideDraws_eq_spec (draw : Nat → DrawOutcome) :
    ∀ k i, (runSlideDraws draw i k).1
      = (((List.range' i k).map draw).takeWhile isOk).filterMap okPatch := by
  intro k
  induction k with
  | zero => intro i; rfl
  | succ m ih =>
    intro i
    rw [List.range'_succ, List.map_cons, List.takeWhile_cons]
    cases h : draw i with
    | ok p =>
      rw [runSlideDraws, h]
      simp only [isOk, if_true]
      rw [List.filterMap_cons]
      simp only [okPatch]
      rw [← ih (i + 1)]
    | fail =>
      rw [runSlideDraws, h]
      simp [isOk, okPatch]

/-- Every element of a prefix of a list satisfies any predicate every
element of the list satisfies. -/
theorem all_take_of_all (p : Char → Bool) :
    ∀ (l : List Char) (n : Nat), l.all p = true → (l.take n).all p = true := by
  intro l
  induction l with
  | nil => intro n _; simp
  | cons a as ih =>
    intro n h
    cases n with
    | zero => simp
    | succ k =>
      simp only [List.take, List.all_cons, Bool.and_eq_true] at h ⊢
      exact ⟨h.1, ih k h.2⟩

/-- A generator where every slide raises, used to instantiate the error
handling theorems at a concrete input. -/
def wAttempt : Nat → AttemptOutcome := fun _ => AttemptOutcome.exn

/-- A generator whose first slide raises and whose later slides return a
patch, used to exhibit `__next__` continuing past a failing slide to the
next slide's successful patch. -/
def mixedAttempt : Nat → AttemptOutcome :=
  fun i => if i == 0 then .exn else .ret 5

/-- A draw oracle whose first draw fails and whose later draws all succeed,
used to exhibit the first-failure break of `OfflinePatcher.run`. -/
def cexDraw : Nat → DrawOutcome := fun i => if i == 0 then .fail else .ok 7

/-! ### Claim theorems for the patcher -/

/-- C7 — error handling of `PatchGenerator.__next__`: whenever an
exception is raised while obtaining a patch for the slide under the cursor,
it is caught, the cursor moves past the failing slide, and the call behaves
exactly as if it had started on the next slide — in particular, a later
slide's successful patch is still returned rather than the run aborting;
and, separately, whenever the call from a fresh cursor raises
`StopIteration` (returns `none`), no slide attempt below `n` returned a
patch — every slide was processed before giving up. -/
theorem pgNext_error_skips_slide (attempt : Nat → AttemptOutcome)
    (n i j v : Nat) (hi : i < n) (he : attempt i = .exn) :
    pgNext attempt n i = pgNext attempt n (i + 1) ∧
      ((pgNext attempt n 0).1 = none → j < n → attempt j ≠ .ret v) := by
  constructor
  · unfold pgNext
    have hfuel : n - i = (n - (i + 1)) + 1 := by omega
    rw [hfuel, pgNextGo, he]
  · intro hnone hj
    exact pgNextGo_none_no_ret attempt (n - 0) 0 hnone j v (Nat.zero_le j)
      (by omega)

/-- C7 — witness.  With slide 0 raising and slide 1 succeeding, the call
starting at slide 0 equals the call starting at slide 1 and both return
slide 1's patch with the cursor at 2 (the error did not abort the run);
with every slide raising, the whole run returns `StopIteration` and slide 1
indeed never returned a patch. -/
theorem pgNext_error_skips_slide_witness :
    (pgNext mixedAttempt 2 0 = pgNext mixedAttempt 2 1 ∧
      ((pgNext mixedAttempt 2 0).1 = none → 1 < 2 → mixedAttempt 1 ≠ .ret 0)) ∧
    pgNext mixedAttempt 2 0 = (some 5, 2) ∧
    wAttempt 1 ≠ AttemptOutcome.ret 0 :=
  ⟨pgNext_error_skips_slide mixedAttempt 2 0 1 0 (by decide) (by decide),
    by decide,
    (pgNext_error_skips_slide wAttempt 2 0 1 0 (by decide) (by decide)).2
      (by decide) (by decide)⟩

/-- C10 — cursor invariant of `PatchGenerator`: the cursor starts at `0 ≤ n`
after `__init__`, stays at most `n` after any `__next__` call, and whenever
the call raises `StopIteration` the cursor has been reset to `0`, so the
exhausted generator restarts from the first slide. -/
theorem pgNext_cursor_invariant (attempt : Nat → AttemptOutcome) (n i : Nat) :
    pgInitI ≤ n ∧ (pgNext attempt n i).2 ≤ n ∧
      ((pgNext attempt n i).1 = none → (pgNext attempt n i).2 = 0) := by
  refine ⟨Nat.zero_le n, ?_, (pgNextGo_cursor attempt (n - i) i).2⟩
  by_cases hi : i ≤ n
  · have h := (pgNextGo_cursor attempt (n - i) i).1
    unfold pgNext
    omega
  · have h0 : n - i = 0 := by omega
    unfold pgNext
    rw [h0]
    exact Nat.zero_le n

/-- C10 — witness at a concrete input. -/
theorem pgNext_cursor_invariant_witness :
    pgInitI ≤ 1 ∧ (pgNext wAttempt 1 0).2 ≤ 1 ∧
      ((pgNext wAttempt 1 0).1 = none → (pgNext wAttempt 1 0).2 = 0) :=
  pgNext_cursor_invariant wAttempt 1 0

/-- C8 — counterexample.  The claim says each slide gets up to `n` draw
attempts and a slide is skipped only on repeated failure, but
`OfflinePatcher.run` breaks out of a slide's draw loop on the first
exception: with a 2-draw budget on one slide whose draw 0 fails and whose
draw 1 would succeed with a patch, only 1 draw is attempted, nothing is
saved, and the successful draw 1 is never made. -/
theorem offlineRun_single_failure_skips_cex :
    cexDraw 0 = .fail ∧ cexDraw 1 = .ok 7 ∧
      runSlideDraws cexDraw 0 2 = ([], 1) ∧
      offlineRun (fun _ => cexDraw) 2 [0] = [] := by
  refine ⟨by decide, by decide, by decide, by decide⟩

/-- C8 — amended claim: `OfflinePatcher.run n` processes the slides in list
order, and for each slide attempts random-patch draws in order, saving each
successful patch, until `n` draws are made or a draw fails; on the first
failing draw it abandons the remainder of that slide's draws and moves on
to the next slide.  Stated as: the saved `(slide, patch)` pairs are, slide
by slide in list order, the successes of the draws up to the first failure,
capped at `n`. -/
theorem offlineRun_first_failure_policy (draw : Nat → Nat → DrawOutcome)
    (n : Nat) (slides : List Nat) :
    offlineRun draw n slides
      = slides.flatMap
          (fun s => (specSlideSaves (draw s) n).map (fun p => (s, p))) := by
  induction slides with
  | nil => rfl
  | cons s rest ih =>
    rw [List.flatMap_cons]
    have hL : offlineRun draw n (s :: rest)
        = (runSlideDraws (draw s) 0 n).1.map (fun p => (s, p))
            ++ offlineRun draw n rest := rfl
    rw [hL, ih, runSlideDraws_eq_spec (draw s) n 0]
    unfold specSlideSaves
    rw [List.range_eq_range']

/-- C6 — shape of every patch file path: `_compose_path` yields the target
directory joined with `<slide-basename>_<id>.png`, where the slide base
name is the slide file name with its extension(s) stripped (`splitext`
twice) and the id is the first 5 characters of the random hex string, so it
is 5 characters long and all hex; and `__init__` ensures the target
directory exists. -/
theorem composePath_output_form (t f : String) (u : List Char)
    (dirs : List String) (h5 : 5 ≤ u.length)
    (hhex : u.all isHexDigitCh = true) :
    composePath t f u
        = pyJoin t (slideBasename f ++ "_" ++ String.mk (u.take 5)
            ++ "." ++ "png")
      ∧ (u.take 5).length = 5
      ∧ (u.take 5).all isHexDigitCh = true
      ∧ (ensureDir dirs t).contains t = true := by
  refine ⟨rfl, ?_, all_take_of_all isHexDigitCh u 5 hhex, ?_⟩
  · rw [List.length_take]
    exact Nat.min_eq_left h5
  · unfold ensureDir
    split
    · assumption
    · simp

/-- C6 — witness at a concrete input. -/
theorem composePath_output_form_witness :
    composePath "patches" "slide1.svs" ['a', 'b', 'c', 'd', 'e', 'f']
        = pyJoin "patches" (slideBasename "slide1.svs" ++ "_"
            ++ String.mk (['a', 'b', 'c', 'd', 'e', 'f'].take 5)
            ++ "." ++ "png")
      ∧ (['a', 'b', 'c', 'd', 'e', 'f'].take 5).length = 5
      ∧ (['a', 'b', 'c', 'd', 'e', 'f'].take 5).all isHexDigitCh = true
      ∧ (ensureDir [] "patches").contains "patches" = true :=
  composePath_output_form "patches" "slide1.svs" ['a', 'b', 'c', 'd', 'e', 'f']
    [] (by decide) (by decide)
